import Mathlib

/-!
Shallow embedding of the `tdxhost` check engine (src/src/ok.rs, src/src/main.rs).

The executable core of the program is a pair of check forests ("required" and
"optional") walked depth-first by `run_test`, with each node carrying a
zero-argument probe closure.  Every closure observes the live host only through
a small set of primitives (MSR reads, `/etc/os-release`, `dmesg`, the KVM
device node, two sysfs parameter files, CPUID).  We model a run by an `Env`
record holding the values those primitives would return when they succeed, and
embed each closure as a pure function of `Env`.  The depth-first executor is
embedded as a function producing the aggregate boolean together with a trace of
events (probe invocations, result reports, post-run callbacks, SKIP lines),
which makes "is evaluated", "is reported as skipped" and "is invoked at most
once" statable.

Fallible I/O (the `unwrap`/`expect` calls in the Rust source) is modelled
separately by `Except`-returning variants of the probe helpers
(`get_os_pretty_nameE`, `check_tdx_moduleE`, `msrReadE`, ...) where
`Except.error` stands for a panic escaping the probe.
-/

/-! ### Trace predicates and counters -/

/-- `TestState` from ok.rs: result state of one check.  `Tbd` is the
"indeterminate / manual" state, `Skip` is synthesized for descendants of a
failed node.  The Rust `#[default]` is `Fail`. -/
inductive TestState where
  | Ok
  | Fail
  | Warning
  | Tbd
  | Skip
deriving DecidableEq, Repr

/-- `TestOptionalState` from ok.rs (`#[default]` is `Required`). -/
inductive TestOptionalState where
  | Required
  | Optional
deriving DecidableEq, Repr

/-- `TestOperationState` from ok.rs (`#[default]` is `Program`). -/
inductive TestOperationState where
  | Manual
  | Program
deriving DecidableEq, Repr

/-- `KvmParameter` from ok.rs. -/
inductive KvmParameter where
  | Tdx
  | Sgx
deriving DecidableEq, Repr

/-- `TestResult` from ok.rs, with the `Default` field values of the Rust
`#[derive(Default)]`. -/
structure TestResult where
  action : String := ""
  reason : String := ""
  state : TestState := TestState.Fail
  optional_state : TestOptionalState := TestOptionalState.Required
  operation : TestOperationState := TestOperationState.Program
deriving DecidableEq, Repr

/-- The host observations the probes can make, assuming each underlying I/O
primitive succeeds.  `msr a` is the 64-bit value read from MSR address `a` on
cpu 0; `kvmOpenOk` is whether opening `/dev/kvm` succeeds and
`kvmApiVersion` the ioctl result; the two `kvm*Read` fields are the outcomes
of `std::fs::read_to_string` on the sysfs parameter files. -/
structure Env where
  cpuVendor : String
  osPrettyName : String
  dmesg : String
  msr : Nat → Nat
  kvmOpenOk : Bool
  kvmApiVersion : Int
  kvmSgxExists : Bool
  kvmSgxRead : Except String String
  kvmTdxExists : Bool
  kvmTdxRead : Except String String

/-- `SUPPORTED_OSES` from ok.rs. -/
def SUPPORTED_OSES : List String :=
  ["Ubuntu 22.04.1 LTS",
   "Red Hat Enterprise Linux 8.7 (Ootpa)",
   "CentOS Stream 9"]

/-- `check_os` from ok.rs, as a function of the pretty name returned by
`get_os_pretty_name`.  The Rust body initializes `supported = false` and then
runs `SUPPORTED_OSES.into_iter().for_each(|o| supported = o == pretty_name)`;
each iteration overwrites `supported` with the current comparison, which the
fold below reproduces exactly. -/
def check_os (pretty_name : String) : Bool :=
  SUPPORTED_OSES.foldl (fun _ o => o == pretty_name) false

/-- Boolean substring test on lists of characters, mirroring Rust
`str::contains` with a literal pattern. -/
def listContainsSub : List Char → List Char → Bool
  | s, pat =>
    if pat.isPrefixOf s then true
    else
      match s with
      | [] => false
      | _ :: rest => listContainsSub rest pat

/-- Substring test on strings (Rust `str::contains` with a string pattern). -/
def strContains (s pat : String) : Bool :=
  listContainsSub s.toList pat.toList

/-- `check_tdx_module` from ok.rs as a function of the captured dmesg text
(the `sudo dmesg` invocation itself is modelled in `check_tdx_moduleE`). -/
def check_tdx_module (dmesg : String) : Bool :=
  strContains dmesg "virt/tdx: module initialized"

/-- `check_bios_tme_bypass` from ok.rs: bit 31 of MSR 0x982. -/
def check_bios_tme_bypass (env : Env) : Bool :=
  env.msr 0x982 &&& (1 <<< 31) > 0

/-- `check_kvm_supported` from ok.rs: open `/dev/kvm`, issue the
KVM_GET_API_VERSION ioctl, fail on open error or negative version. -/
def check_kvm_supported (env : Env) : TestState × String :=
  if env.kvmOpenOk then
    if env.kvmApiVersion < 0 then
      (TestState.Fail, "KVM device node (/dev/kvm) should be accessible")
    else
      (TestState.Ok, "")
  else
    (TestState.Fail, "Unable to read KVM device node file (/dev/kvm)")

/-- The sysfs path for a `KvmParameter` (from `check_kvm_module_supported`). -/
def kvmParamLoc : KvmParameter → String
  | KvmParameter.Tdx => "/sys/module/kvm_intel/parameters/tdx"
  | KvmParameter.Sgx => "/sys/module/kvm_intel/parameters/sgx"

/-- The path component after the last `/`, mirroring
`param_loc[param_loc.rfind('/').unwrap() + 1..]` in ok.rs. -/
def lastPathComponent (s : String) : String :=
  (s.splitOn "/").getLastD s

/-- `check_kvm_module_supported` from ok.rs, as a function of whether the
parameter file exists and of the result of reading it.  Returns
`(state, action, reason)`. -/
def check_kvm_module_supported (param : KvmParameter) (paramExists : Bool)
    (readRes : Except String String) : TestState × String × String :=
  let param_loc := kvmParamLoc param
  let resultReason : TestState × String :=
    if paramExists then
      match readRes with
      | Except.ok result =>
        if result.trim = "1" ∨ result.trim = "Y" then
          (TestState.Ok, "")
        else
          (TestState.Fail,
           s!"Parameter file ({param_loc}) contains invalid value: {result}")
      | Except.error e =>
        (TestState.Fail, s!"Unable to read parameter file: {e}")
    else
      (TestState.Fail, s!"Provided parameter does not exist: {param_loc}")
  let suffix := lastPathComponent param_loc
  (resultReason.1,
   s!"Check /sys/module/kvm_intel/parameters/{suffix} = Y (required)",
   resultReason.2)

/-- Identifier of one external observation primitive, used to count probe
invocations in the run trace. -/
inductive ProbeId where
  | cpuidVendor
  | osPrettyName
  | dmesgRead
  | msrRead (addr : Nat)
  | kvmOpen
  | kvmParamSgx
  | kvmParamTdx
deriving DecidableEq, Repr

/-- The fixed set of checks assembled by `get_required_tests` and
`get_optional_tests` in ok.rs; each constructor names one `Test` literal's
`run` closure. -/
inductive CheckKind where
  | cpuManuId
  | osDistro
  | sgxEnabled
  | tdxEnabled
  | tdxModule
  | tmeEnabled
  | tmeMt
  | tdxKeySplit
  | sgxRegServer
  | kvmSupported
  | kvmSgxParam
  | kvmTdxParam
  | biosMemMap
  | tmeBypass
  | seamLoader
deriving DecidableEq, Repr

/-- The `run` closure of each check, transcribed from the `Test` literals in
`get_required_tests` / `get_optional_tests` in ok.rs. -/
def runCheck (k : CheckKind) (env : Env) : TestResult :=
  match k with
  | CheckKind.cpuManuId =>
    { action := "Check CPUID 0x0 Manufacturer ID = GenuineIntel",
      reason := "The CPUID Manufacturer ID should be GenuineIntel",
      state := if env.cpuVendor = "GenuineIntel" then TestState.Ok else TestState.Fail }
  | CheckKind.osDistro =>
    { action := "Check OS: The distro and version are correct",
      reason := "Your OS distro is not supported yet.",
      state := if check_os env.osPrettyName then TestState.Ok else TestState.Fail }
  | CheckKind.sgxEnabled =>
    { action := "Check BIOS: SGX = Enabled",
      reason := "The bit 18 of MSR 0x3a should be 1",
      state := if env.msr 0x3a &&& (1 <<< 18) > 0 then TestState.Ok else TestState.Fail }
  | CheckKind.tdxEnabled =>
    { action := "Check BIOS: TDX = Enabled",
      reason := "The bit 11 of MSR 0x1401 should be 1",
      state := if env.msr 0x1401 &&& (1 <<< 11) > 0 then TestState.Ok else TestState.Fail }
  | CheckKind.tdxModule =>
    { action := "Check TDX Module: The module is initialized",
      reason := "TDX module is required",
      state := if check_tdx_module env.dmesg then TestState.Ok else TestState.Fail }
  | CheckKind.tmeEnabled =>
    { action := "Check BIOS: TME = Enabled",
      reason := "The bit 1 of MSR 0x982 should be 1.",
      state := if env.msr 0x982 &&& (1 <<< 1) > 0 then TestState.Ok else TestState.Fail }
  | CheckKind.tmeMt =>
    { action := "Check BIOS: TME-MT/TME-MK = Enabled",
      reason := "The bit 1 of MSR 0x982 should be 1.",
      state := if env.msr 0x982 &&& (1 <<< 1) > 0 then TestState.Tbd else TestState.Fail,
      operation := TestOperationState.Manual }
  | CheckKind.tdxKeySplit =>
    { action := "Check BIOS: TDX Key Split != 0",
      reason := "TDX Key Split should be non-zero",
      state := if env.msr 0x981 &&& (0x7fff <<< 36) ≠ 0 then TestState.Ok else TestState.Fail }
  | CheckKind.sgxRegServer =>
    { action := "Check BIOS: SGX registration server",
      reason := "",
      state := TestState.Tbd,
      operation := TestOperationState.Manual }
  | CheckKind.kvmSupported =>
    { action := "Check KVM is supported",
      reason := (check_kvm_supported env).2,
      state := (check_kvm_supported env).1 }
  | CheckKind.kvmSgxParam =>
    let r := check_kvm_module_supported KvmParameter.Sgx env.kvmSgxExists env.kvmSgxRead
    { action := r.2.1, reason := r.2.2, state := r.1 }
  | CheckKind.kvmTdxParam =>
    let r := check_kvm_module_supported KvmParameter.Tdx env.kvmTdxExists env.kvmTdxRead
    { action := r.2.1, reason := r.2.2, state := r.1 }
  | CheckKind.biosMemMap =>
    { action := "Check BIOS: Volatile Memory should be 1LM",
      state := TestState.Tbd,
      optional_state := TestOptionalState.Optional,
      operation := TestOperationState.Manual }
  | CheckKind.tmeBypass =>
    { action := "Check BIOS: TME Bypass = Enabled",
      reason := "The bit 31 of MSR 0x982 should be 1",
      state := if check_bios_tme_bypass env then TestState.Ok else TestState.Fail,
      optional_state := TestOptionalState.Optional }
  | CheckKind.seamLoader =>
    { action := "Check BIOS: SEAM Loader = Enabled",
      state := TestState.Tbd,
      operation := TestOperationState.Manual,
      optional_state := TestOptionalState.Optional }

/-- The probes each check's `run` closure invokes (each closure in ok.rs reads
its signal exactly once, unconditionally).  `sgxRegServer`, `biosMemMap` and
`seamLoader` probe nothing during `run`. -/
def runProbes : CheckKind → List ProbeId
  | CheckKind.cpuManuId => [ProbeId.cpuidVendor]
  | CheckKind.osDistro => [ProbeId.osPrettyName]
  | CheckKind.sgxEnabled => [ProbeId.msrRead 0x3a]
  | CheckKind.tdxEnabled => [ProbeId.msrRead 0x1401]
  | CheckKind.tdxModule => [ProbeId.dmesgRead]
  | CheckKind.tmeEnabled => [ProbeId.msrRead 0x982]
  | CheckKind.tmeMt => [ProbeId.msrRead 0x982]
  | CheckKind.tdxKeySplit => [ProbeId.msrRead 0x981]
  | CheckKind.sgxRegServer => []
  | CheckKind.kvmSupported => [ProbeId.kvmOpen]
  | CheckKind.kvmSgxParam => [ProbeId.kvmParamSgx]
  | CheckKind.kvmTdxParam => [ProbeId.kvmParamTdx]
  | CheckKind.biosMemMap => []
  | CheckKind.tmeBypass => [ProbeId.msrRead 0x982]
  | CheckKind.seamLoader => []

/-- Which checks carry a `post_run` callback in ok.rs, and the probes that
callback invokes: the OS-distro callback calls `get_os_pretty_name()` again,
the TME-Bypass callback calls `check_bios_tme_bypass()` again (reading MSR
0x982), and the SGX-registration-server callback reads MSR 0xCE.  `none`
means `post_run: None`. -/
def postRunOf : CheckKind → Option (List ProbeId)
  | CheckKind.osDistro => some [ProbeId.osPrettyName]
  | CheckKind.tmeMt => some []
  | CheckKind.sgxRegServer => some [ProbeId.msrRead 0xce]
  | CheckKind.biosMemMap => some []
  | CheckKind.tmeBypass => some [ProbeId.msrRead 0x982]
  | _ => none

/-- `Test` from ok.rs: a named check with sub-tests.  The boxed `run` and
`post_run` closures are represented by the `CheckKind` tag, dispatched
through `runCheck` / `postRunOf`. -/
inductive Test where
  | mk (name : String) (kind : CheckKind) (sub_tests : List Test)

/-- The `name` field of a `Test`. -/
def Test.name : Test → String
  | Test.mk n _ _ => n

/-- The `CheckKind` tag standing for the `run`/`post_run` closures. -/
def Test.kind : Test → CheckKind
  | Test.mk _ k _ => k

/-- The `sub_tests` field of a `Test`. -/
def Test.subTests : Test → List Test
  | Test.mk _ _ s => s

/-- One observable step of a run: invocation of a node's `run` closure, an
underlying probe call, the report printed by `report_result` (recording the
`TestResult` as produced by `run`), invocation of a node's `post_run`
callback, or a `[ SKIP ] label` line printed by `report_skip_result` (which
prints the label only — it never prints a reason line). -/
inductive Event where
  | eval (name : String)
  | probe (p : ProbeId)
  | report (r : TestResult)
  | postRun (name : String)
  | skipLine (label : String)
deriving DecidableEq, Repr

/-- `report_skip_result` from ok.rs: for each test, print one `[ SKIP ]` line
with the test's name (no reason), then recurse into its sub-tests. -/
def skipTrace : List Test → List Event
  | [] => []
  | Test.mk name _ sub :: ts =>
    Event.skipLine name :: (skipTrace sub ++ skipTrace ts)

/-- The events produced while processing one node before any branching on its
state: the `run` invocation with its probe calls, the `report_result` call,
and the unconditional `post_run` invocation (if present) with its probe
calls. -/
def ownEvents (name : String) (k : CheckKind) (env : Env) : List Event :=
  Event.eval name :: (runProbes k).map Event.probe
    ++ [Event.report (runCheck k env)]
    ++ (match postRunOf k with
        | none => []
        | some ps => Event.postRun name :: ps.map Event.probe)

/-- `run_test` from ok.rs: walk the forest depth-first; on `Ok` recurse into
sub-tests (AND-ing their aggregate into `passed`), on `Fail` set
`passed = false` and emit skip lines for the whole subtree, on any other
state do nothing further.  Returns the aggregate boolean and the event
trace. -/
def runTests (env : Env) : List Test → Bool × List Event
  | [] => (true, [])
  | Test.mk name k sub :: ts =>
    let res := runCheck k env
    let own := ownEvents name k env
    let child : Bool × List Event :=
      match res.state with
      | TestState.Ok => runTests env sub
      | TestState.Fail => (false, skipTrace sub)
      | _ => (true, [])
    let rest := runTests env ts
    (child.1 && rest.1, own ++ child.2 ++ rest.2)

/-- The "Check TDX module initialized" sub-test of `tdx_enabled_test`. -/
def tdx_module_test : Test :=
  Test.mk "Check TDX module initialized" CheckKind.tdxModule []

/-- The "Check TME enabled" sub-test of `tdx_enabled_test`. -/
def tme_enabled_test : Test :=
  Test.mk "Check TME enabled" CheckKind.tmeEnabled []

/-- The "Check TME-MT/TME-MK enabled" sub-test of `tdx_enabled_test`. -/
def tme_mt_test : Test :=
  Test.mk "Check TME-MT/TME-MK enabled" CheckKind.tmeMt []

/-- The "Check TDX Key Split != 0" sub-test of `tdx_enabled_test`. -/
def tdx_key_split_test : Test :=
  Test.mk "Check TDX Key Split != 0" CheckKind.tdxKeySplit []

/-- The "Check SGX registration server" sub-test of `tdx_enabled_test`. -/
def sgx_reg_server_test : Test :=
  Test.mk "Check SGX registration server" CheckKind.sgxRegServer []

/-- The `sub_tests` vector of `tdx_enabled_test` in `get_required_tests`. -/
def tdx_sub_tests : List Test :=
  [tdx_module_test, tme_enabled_test, tme_mt_test, tdx_key_split_test,
   sgx_reg_server_test]

/-- `tdx_enabled_test` from `get_required_tests` in ok.rs. -/
def tdx_enabled_test : Test :=
  Test.mk "Check TDX enabled" CheckKind.tdxEnabled tdx_sub_tests

/-- `sgx_enabled_test` from `get_required_tests` in ok.rs. -/
def sgx_enabled_test : Test :=
  Test.mk "Check SGX enabled" CheckKind.sgxEnabled [tdx_enabled_test]

/-- `os_distro_test` from `get_required_tests` in ok.rs. -/
def os_distro_test : Test :=
  Test.mk "Check OS distro" CheckKind.osDistro [sgx_enabled_test]

/-- `cpu_manu_id_test` from `get_required_tests` in ok.rs. -/
def cpu_manu_id_test : Test :=
  Test.mk "Check CPU Manufacturer ID" CheckKind.cpuManuId [os_distro_test]

/-- `kvm_sgx_mod_test` from `get_required_tests` in ok.rs. -/
def kvm_sgx_mod_test : Test :=
  Test.mk "Check KVM SGX parameter enabled" CheckKind.kvmSgxParam []

/-- `kvm_tdx_mod_test` from `get_required_tests` in ok.rs. -/
def kvm_tdx_mod_test : Test :=
  Test.mk "Check KVM TDX parameter enabled" CheckKind.kvmTdxParam []

/-- The `sub_tests` vector of `kvm_supported_test`. -/
def kvm_sub_tests : List Test :=
  [kvm_sgx_mod_test, kvm_tdx_mod_test]

/-- `kvm_supported_test` from `get_required_tests` in ok.rs. -/
def kvm_supported_test : Test :=
  Test.mk "Check KVM is supported" CheckKind.kvmSupported kvm_sub_tests

/-- The required forest built by `get_required_tests` in ok.rs. -/
def get_required_tests : List Test :=
  [cpu_manu_id_test, kvm_supported_test]

/-- `bios_mem_map_test` from `get_optional_tests` in ok.rs. -/
def bios_mem_map_test : Test :=
  Test.mk "Volatile Memory should be 1LM" CheckKind.biosMemMap []

/-- `bios_tme_bypass_test` from `get_optional_tests` in ok.rs. -/
def bios_tme_bypass_test : Test :=
  Test.mk "TME Bypass is enabled" CheckKind.tmeBypass []

/-- `bios_seam_loader_test` from `get_optional_tests` in ok.rs. -/
def bios_seam_loader_test : Test :=
  Test.mk "SEAM Loader is enabled" CheckKind.seamLoader []

/-- The optional forest built by `get_optional_tests` in ok.rs. -/
def get_optional_tests : List Test :=
  [bios_mem_map_test, bios_tme_bypass_test, bios_seam_loader_test]

/-- `run_all_checks` from ok.rs: run the required forest, then the optional
forest (whose aggregate is discarded), and return `Err` exactly when the
required aggregate is false. -/
def run_all_checks (env : Env) : Except String Unit × List Event :=
  let req := runTests env get_required_tests
  let opt := runTests env get_optional_tests
  ((if !req.1 then Except.error "One or more required tests failed" else Except.ok ()),
   req.2 ++ opt.2)

/-- `main` from src/main.rs: the `Ok` subcommand evaluates `run_all_checks`
and the resulting `Result` becomes the process exit status by Rust's
termination convention (`Err` exits nonzero, `Ok` exits zero). -/
def mainExitCode (env : Env) : Nat :=
  match (run_all_checks env).1 with
  | Except.ok _ => 0
  | Except.error _ => 1

/-- Number of `run`-closure invocations (`eval` events) in a trace. -/
def evalCount (tr : List Event) : Nat :=
  tr.countP fun e => match e with | Event.eval _ => true | _ => false

/-- Number of invocations of probe `p` in a trace (counting calls made both
from `run` closures and from `post_run` callbacks). -/
def probeCount (p : ProbeId) (tr : List Event) : Nat :=
  tr.countP fun e => decide (e = Event.probe p)

/-- Number of `post_run` callback invocations in a trace. -/
def postRunCount (tr : List Event) : Nat :=
  tr.countP fun e => match e with | Event.postRun _ => true | _ => false

/-- A report of a `Fail` state on a `Required`, `Program`-operated (automatic)
check. -/
def isAutoFailReport (e : Event) : Bool :=
  match e with
  | Event.report r =>
    decide (r.state = TestState.Fail)
      && decide (r.operation = TestOperationState.Program)
      && decide (r.optional_state = TestOptionalState.Required)
  | _ => false

/-- Whether a trace reports a failed required automatic check. -/
def anyAutoFail (tr : List Event) : Bool := tr.any isAutoFailReport

/-- A report of a `Fail` state (of any operation mode / optionality). -/
def isFailReport (e : Event) : Bool :=
  match e with
  | Event.report r => decide (r.state = TestState.Fail)
  | _ => false

/-- Whether a trace reports any failed check. -/
def anyFailReport (tr : List Event) : Bool := tr.any isFailReport

/-- Whether a trace consists of `[ SKIP ]` lines only. -/
def onlySkipLines (tr : List Event) : Bool :=
  tr.all fun e => match e with | Event.skipLine _ => true | _ => false

/-- The names of all nodes of a forest in depth-first preorder (the order in
which `report_skip_result` prints them). -/
def namesPreorder : List Test → List String
  | [] => []
  | Test.mk name _ sub :: ts => name :: (namesPreorder sub ++ namesPreorder ts)

/-- The events `run_test` produces for a node's sub-tests, as a function of
the node's own state: an `Ok` node's sub-tests are run, a `Fail` node's
sub-tests are skip-reported without being run, any other state produces
nothing for them. -/
def childSegment (t : Test) (env : Env) : List Event :=
  match (runCheck t.kind env).state with
  | TestState.Ok => (runTests env t.subTests).2
  | TestState.Fail => skipTrace t.subTests
  | _ => []

/-- A host observation record on which every automatic check fails (all MSRs
zero, unsupported OS, no TDX dmesg line, KVM device unusable). -/
def envAllOff : Env where
  cpuVendor := ""
  osPrettyName := ""
  dmesg := ""
  msr := fun _ => 0
  kvmOpenOk := false
  kvmApiVersion := 0
  kvmSgxExists := false
  kvmSgxRead := Except.error "read failed"
  kvmTdxExists := false
  kvmTdxRead := Except.error "read failed"

/-- A host observation record on which every automatic check passes.  Note
the OS pretty name must be the last allow-list entry, because of the way
`check_os` folds over `SUPPORTED_OSES`. -/
def envAllOn : Env where
  cpuVendor := "GenuineIntel"
  osPrettyName := "CentOS Stream 9"
  dmesg := "[    1.23] virt/tdx: module initialized"
  msr := fun a =>
    if a = 0x3a then 1 <<< 18
    else if a = 0x1401 then 1 <<< 11
    else if a = 0x982 then (1 <<< 1) + (1 <<< 31)
    else if a = 0x981 then 1 <<< 36
    else 0
  kvmOpenOk := true
  kvmApiVersion := 12
  kvmSgxExists := true
  kvmSgxRead := Except.ok "Y\n"
  kvmTdxExists := true
  kvmTdxRead := Except.ok "1"

def condCpu (env : Env) : Bool := decide (env.cpuVendor = "GenuineIntel")

def condOs (env : Env) : Bool := check_os env.osPrettyName

def condSgx (env : Env) : Bool := decide (env.msr 0x3a &&& (1 <<< 18) > 0)

def condTdx (env : Env) : Bool := decide (env.msr 0x1401 &&& (1 <<< 11) > 0)

def condTdxModule (env : Env) : Bool := check_tdx_module env.dmesg

def condTme (env : Env) : Bool := decide (env.msr 0x982 &&& (1 <<< 1) > 0)

def condKeySplit (env : Env) : Bool := decide (env.msr 0x981 &&& (0x7fff <<< 36) ≠ 0)

def condKvm (env : Env) : Bool := decide ((check_kvm_supported env).1 = TestState.Ok)

def condKvmSgx (env : Env) : Bool :=
  decide ((check_kvm_module_supported KvmParameter.Sgx env.kvmSgxExists env.kvmSgxRead).1 = TestState.Ok)

def condKvmTdx (env : Env) : Bool :=
  decide ((check_kvm_module_supported KvmParameter.Tdx env.kvmTdxExists env.kvmTdxRead).1 = TestState.Ok)

def envKeyAlt : Env :=
  { envAllOn with msr := fun a => if a = 0x981 then (1 <<< 36) + 1 else envAllOn.msr a }

def trimQuoteMatches (cs : List Char) : List Char :=
  ((cs.dropWhile (fun c => c == '"')).reverse.dropWhile (fun c => c == '"')).reverse

def get_os_pretty_nameE (osRelease : Option String) : Except String String :=
  match osRelease with
  | none => Except.error "/etc/os-release does not exist"
  | some os_release =>
    match (os_release.splitOn "\n").find? (fun l => strContains l "PRETTY_NAME") with
    | none => Except.error "PRETTY_NAME for os-release does not exist"
    | some pretty_name_line =>
      match pretty_name_line.toList.findIdx? (fun c => c == '"') with
      | none => Except.error "\" character not found in this line"
      | some i =>
        Except.ok (String.mk (trimQuoteMatches (pretty_name_line.toList.drop i)))

def check_osE (osRelease : Option String) : Except String Bool :=
  (get_os_pretty_nameE osRelease).map check_os

def check_tdx_moduleE (dmesgOut : Option String) : Except String Bool :=
  match dmesgOut with
  | none => Except.error "failed to run dmesg"
  | some out => Except.ok (strContains out "virt/tdx: module initialized")

def msrReadE (readRes : Option Nat) : Except String Nat :=
  match readRes with
  | none => Except.error "MSR read failed"
  | some v => Except.ok v

def tdx_enabled_runE (msr1401 : Option Nat) : Except String TestResult :=
  match msrReadE msr1401 with
  | Except.error e => Except.error e
  | Except.ok msr_value =>
    Except.ok
      { action := "Check BIOS: TDX = Enabled",
        reason := "The bit 11 of MSR 0x1401 should be 1",
        state := if msr_value &&& (1 <<< 11) > 0 then TestState.Ok else TestState.Fail }

/-- The colored-crate colors `report_result` selects among. -/
inductive Color where
  | green
  | magenta
  | red
  | yellow
deriving DecidableEq, Repr

/-- The observable rendering of one `report_result` call. -/
structure Rendered where
  color : Color
  stateText : String
  action : String
  reasonLine : Option String
deriving DecidableEq, Repr

/-- `String::from(&TestState)` from ok.rs. -/
def stateText : TestState → String
  | TestState.Ok => "OK"
  | TestState.Fail => "FAIL"
  | TestState.Warning => "WARNING"
  | TestState.Tbd => "TBD"
  | TestState.Skip => "SKIP"

def report_result (result : TestResult) : Rendered :=
  match result.state with
  | TestState.Ok =>
    { color := Color.green, stateText := stateText result.state,
      action := result.action, reasonLine := none }
  | TestState.Warning =>
    { color := Color.magenta, stateText := stateText result.state,
      action := result.action,
      reasonLine := if result.reason = "" then none else some result.reason }
  | _ =>
    let color := Color.red
    let color :=
      if result.optional_state = TestOptionalState.Optional then Color.yellow else color
    let color := if result.state = TestState.Tbd then Color.yellow else color
    let colorReason : Color × String :=
      if result.operation = TestOperationState.Manual then
        ((if result.state = TestState.Fail then Color.red else Color.yellow),
         "Unable to check in program. Please check manually.")
      else
        (color, result.reason)
    { color := colorReason.1, stateText := stateText result.state,
      action := result.action,
      reasonLine := if colorReason.2 = "" then none else some colorReason.2 }

/-! ### Theorems -/

theorem skipTrace_eq_map (ts : List Test) :
    skipTrace ts = (namesPreorder ts).map Event.skipLine := by
  induction ts using skipTrace.induct with
  | case1 => simp [skipTrace, namesPreorder]
  | case2 name k sub ts ih1 ih2 => simp [skipTrace, namesPreorder, ih1, ih2]

theorem evalCount_map_skipLine (ls : List String) :
    evalCount (ls.map Event.skipLine) = 0 := by
  induction ls with
  | nil => simp [evalCount]
  | cons l ls ih => simp [evalCount, List.countP_cons, ih]

theorem postRunCount_map_skipLine (ls : List String) :
    postRunCount (ls.map Event.skipLine) = 0 := by
  induction ls with
  | nil => simp [postRunCount]
  | cons l ls ih => simp [postRunCount, List.countP_cons, ih]

theorem probeCount_map_skipLine (p : ProbeId) (ls : List String) :
    probeCount p (ls.map Event.skipLine) = 0 := by
  induction ls with
  | nil => simp [probeCount]
  | cons l ls ih => simp [probeCount, List.countP_cons, ih]

theorem onlySkipLines_map_skipLine (ls : List String) :
    onlySkipLines (ls.map Event.skipLine) = true := by
  induction ls with
  | nil => simp [onlySkipLines]
  | cons l ls ih => simp [onlySkipLines, ih]

theorem anyAutoFail_map_skipLine (ls : List String) :
    anyAutoFail (ls.map Event.skipLine) = false := by
  induction ls with
  | nil => simp [anyAutoFail]
  | cons l ls ih => simp [anyAutoFail, isAutoFailReport, ih]

theorem anyFailReport_map_skipLine (ls : List String) :
    anyFailReport (ls.map Event.skipLine) = false := by
  induction ls with
  | nil => simp [anyFailReport]
  | cons l ls ih => simp [anyFailReport, isFailReport, ih]

theorem evalCount_map_probe (ps : List ProbeId) :
    evalCount (ps.map Event.probe) = 0 := by
  induction ps with
  | nil => simp [evalCount]
  | cons q ps ih => simp [evalCount, List.countP_cons, ih]

theorem evalCount_ownEvents (name : String) (k : CheckKind) (env : Env) :
    evalCount (ownEvents name k env) = 1 := by
  cases k <;>
    simp [ownEvents, evalCount, runProbes, postRunOf, List.countP_append,
      List.countP_cons]

/-- Every node listed at the top level of a forest is evaluated by
`run_test`, so a run of `ts` contains at least `ts.length` many `eval`
events. -/
theorem length_le_evalCount_runTests (env : Env) (ts : List Test) :
    ts.length ≤ evalCount (runTests env ts).2 := by
  induction ts with
  | nil => simp [runTests, evalCount]
  | cons t ts ih =>
    cases t with
    | mk n k sub =>
      have hown := evalCount_ownEvents n k env
      simp only [runTests, List.length_cons, evalCount, List.countP_append]
      simp only [evalCount] at hown ih
      omega

theorem runTests_single (t : Test) (env : Env) :
    (runTests env [t]).2 = ownEvents t.name t.kind env ++ childSegment t env := by
  cases t with
  | mk n k sub =>
    cases hs : (runCheck k env).state <;>
      simp [runTests, childSegment, Test.name, Test.kind, Test.subTests, hs]

/-- **C1.**  For every node `n` of any forest: if `n`'s `run` yields `Fail`,
the events produced for its sub-tests are exactly one `[ SKIP ]` line per
descendant (in depth-first preorder) and contain no `eval` event, so no
descendant's `run` closure is ever invoked; and the sub-tests' `run`
closures are invoked (an `eval` event exists in the child segment) if and
only if `n`'s own outcome is `Ok` and `n` has sub-tests at all. -/
theorem fail_skips_descendants_and_children_run_iff_pass (t : Test) (env : Env) :
    ((runTests env [t]).2 = ownEvents t.name t.kind env ++ childSegment t env)
    ∧ ((runCheck t.kind env).state = TestState.Fail →
        childSegment t env = (namesPreorder t.subTests).map Event.skipLine
        ∧ evalCount (childSegment t env) = 0)
    ∧ (0 < evalCount (childSegment t env)
        ↔ ((runCheck t.kind env).state = TestState.Ok ∧ t.subTests ≠ [])) := by
  refine ⟨runTests_single t env, ?_, ?_⟩
  · intro hf
    have h1 : childSegment t env = (namesPreorder t.subTests).map Event.skipLine := by
      simp [childSegment, hf, skipTrace_eq_map]
    exact ⟨h1, by simp [h1, evalCount_map_skipLine]⟩
  · cases hs : (runCheck t.kind env).state with
    | Ok =>
      have hseg : childSegment t env = (runTests env t.subTests).2 := by
        simp [childSegment, hs]
      rw [hseg]
      constructor
      · intro hpos
        refine ⟨rfl, ?_⟩
        intro hnil
        rw [hnil] at hpos
        simp [runTests, evalCount] at hpos
      · rintro ⟨-, hne⟩
        have hlen : 0 < t.subTests.length := List.length_pos.mpr hne
        exact lt_of_lt_of_le hlen (length_le_evalCount_runTests env t.subTests)
    | Fail =>
      have hseg : childSegment t env = (namesPreorder t.subTests).map Event.skipLine := by
        simp [childSegment, hs, skipTrace_eq_map]
      simp [hseg, evalCount_map_skipLine, hs]
    | Warning => simp [childSegment, hs, evalCount]
    | Tbd => simp [childSegment, hs, evalCount]
    | Skip => simp [childSegment, hs, evalCount]

/-- **C10.**  If a node's `run` yields `Fail`, the whole output for its
subtree after the node's own events is one `[ SKIP ]` line per descendant
(label only — `report_skip_result` prints no reason line), with no
`post_run` invocation, no probe invocation and no `run` invocation for any
descendant. -/
theorem skipped_subtree_silent (t : Test) (env : Env)
    (hfail : (runCheck t.kind env).state = TestState.Fail) :
    (runTests env [t]).2
        = ownEvents t.name t.kind env
            ++ (namesPreorder t.subTests).map Event.skipLine
    ∧ evalCount ((namesPreorder t.subTests).map Event.skipLine) = 0
    ∧ postRunCount ((namesPreorder t.subTests).map Event.skipLine) = 0
    ∧ (∀ p, probeCount p ((namesPreorder t.subTests).map Event.skipLine) = 0)
    ∧ ∀ e ∈ (namesPreorder t.subTests).map Event.skipLine,
        ∃ label, label ∈ namesPreorder t.subTests ∧ e = Event.skipLine label := by
  have hseg : childSegment t env = (namesPreorder t.subTests).map Event.skipLine := by
    simp [childSegment, hfail, skipTrace_eq_map]
  refine ⟨by rw [runTests_single t env, hseg], evalCount_map_skipLine _,
    postRunCount_map_skipLine _, fun p => probeCount_map_skipLine p _, ?_⟩
  intro e he
  rcases List.mem_map.mp he with ⟨label, hmem, hEq⟩
  exact ⟨label, hmem, hEq.symm⟩

theorem fail_skips_descendants_witness :
    (runCheck sgx_enabled_test.kind envAllOff).state = TestState.Fail
    ∧ (childSegment sgx_enabled_test envAllOff
          = (namesPreorder sgx_enabled_test.subTests).map Event.skipLine
        ∧ evalCount (childSegment sgx_enabled_test envAllOff) = 0) :=
  ⟨by decide,
   (fail_skips_descendants_and_children_run_iff_pass sgx_enabled_test envAllOff).2.1
     (by decide)⟩

theorem skipped_subtree_silent_witness :
    (runCheck kvm_supported_test.kind envAllOff).state = TestState.Fail
    ∧ (runTests envAllOff [kvm_supported_test]).2
        = ownEvents kvm_supported_test.name kvm_supported_test.kind envAllOff
            ++ (namesPreorder kvm_supported_test.subTests).map Event.skipLine :=
  ⟨by decide, (skipped_subtree_silent kvm_supported_test envAllOff (by decide)).1⟩

theorem state_cpu (env : Env) :
    (runCheck CheckKind.cpuManuId env).state
      = (if condCpu env then TestState.Ok else TestState.Fail) := by
  by_cases h : env.cpuVendor = "GenuineIntel" <;> simp [runCheck, condCpu, h]

theorem state_os (env : Env) :
    (runCheck CheckKind.osDistro env).state
      = (if condOs env then TestState.Ok else TestState.Fail) := by
  cases h : check_os env.osPrettyName <;> simp [runCheck, condOs, h]

theorem state_kvm (env : Env) :
    (runCheck CheckKind.kvmSupported env).state
      = (if condKvm env then TestState.Ok else TestState.Fail) := by
  cases ho : env.kvmOpenOk <;> by_cases ha : env.kvmApiVersion < 0 <;>
    simp [runCheck, condKvm, check_kvm_supported, ho, ha]

theorem kvm_param_state (p : KvmParameter) (ex : Bool) (rr : Except String String) :
    (check_kvm_module_supported p ex rr).1 = TestState.Ok
    ∨ (check_kvm_module_supported p ex rr).1 = TestState.Fail := by
  cases ex <;> rcases rr with e | r <;> simp [check_kvm_module_supported]
  split <;> simp

theorem state_kvm_sgx (env : Env) :
    (runCheck CheckKind.kvmSgxParam env).state
      = (if condKvmSgx env then TestState.Ok else TestState.Fail) := by
  rcases kvm_param_state KvmParameter.Sgx env.kvmSgxExists env.kvmSgxRead with h | h <;>
    simp [runCheck, condKvmSgx, h]

theorem state_sgx (env : Env) :
    (runCheck CheckKind.sgxEnabled env).state
      = (if condSgx env then TestState.Ok else TestState.Fail) := by
  by_cases h : env.msr 0x3a &&& (1 <<< 18) > 0 <;> simp [runCheck, condSgx, h]

theorem state_tdx (env : Env) :
    (runCheck CheckKind.tdxEnabled env).state
      = (if condTdx env then TestState.Ok else TestState.Fail) := by
  by_cases h : env.msr 0x1401 &&& (1 <<< 11) > 0 <;> simp [runCheck, condTdx, h]

theorem state_tdxModule (env : Env) :
    (runCheck CheckKind.tdxModule env).state
      = (if condTdxModule env then TestState.Ok else TestState.Fail) := by
  cases h : check_tdx_module env.dmesg <;> simp [runCheck, condTdxModule, h]

theorem state_tme (env : Env) :
    (runCheck CheckKind.tmeEnabled env).state
      = (if condTme env then TestState.Ok else TestState.Fail) := by
  by_cases h : env.msr 0x982 &&& (1 <<< 1) > 0 <;> simp [runCheck, condTme, h]

theorem state_tmeMt (env : Env) :
    (runCheck CheckKind.tmeMt env).state
      = (if condTme env then TestState.Tbd else TestState.Fail) := by
  by_cases h : env.msr 0x982 &&& (1 <<< 1) > 0 <;> simp [runCheck, condTme, h]

theorem state_keySplit (env : Env) :
    (runCheck CheckKind.tdxKeySplit env).state
      = (if condKeySplit env then TestState.Ok else TestState.Fail) := by
  by_cases h : env.msr 0x981 &&& (0x7fff <<< 36) ≠ 0 <;> simp [runCheck, condKeySplit, h]

theorem state_sgxReg (env : Env) :
    (runCheck CheckKind.sgxRegServer env).state = TestState.Tbd := rfl

theorem state_kvm_tdx (env : Env) :
    (runCheck CheckKind.kvmTdxParam env).state
      = (if condKvmTdx env then TestState.Ok else TestState.Fail) := by
  rcases kvm_param_state KvmParameter.Tdx env.kvmTdxExists env.kvmTdxRead with h | h <;>
    simp [runCheck, condKvmTdx, h]

theorem tdx_sub_pass (env : Env) :
    (runTests env tdx_sub_tests).1
      = (condTdxModule env && condTme env && condKeySplit env) := by
  cases h5 : condTdxModule env <;> cases h6 : condTme env <;> cases h7 : condKeySplit env <;>
    simp [tdx_sub_tests, tdx_module_test, tme_enabled_test, tme_mt_test,
      tdx_key_split_test, sgx_reg_server_test, runTests,
      state_tdxModule, state_tme, state_tmeMt, state_keySplit, state_sgxReg,
      h5, h6, h7]

theorem isAutoFailReport_eval (n : String) : isAutoFailReport (Event.eval n) = false := rfl

theorem isAutoFailReport_probe (p : ProbeId) : isAutoFailReport (Event.probe p) = false := rfl

theorem isAutoFailReport_postRun (n : String) : isAutoFailReport (Event.postRun n) = false := rfl

theorem isAutoFailReport_skipLine (l : String) : isAutoFailReport (Event.skipLine l) = false := rfl

theorem isFailReport_eval (n : String) : isFailReport (Event.eval n) = false := rfl

theorem isFailReport_probe (p : ProbeId) : isFailReport (Event.probe p) = false := rfl

theorem isFailReport_postRun (n : String) : isFailReport (Event.postRun n) = false := rfl

theorem isFailReport_skipLine (l : String) : isFailReport (Event.skipLine l) = false := rfl

theorem af_report_tdxModule (env : Env) :
    isAutoFailReport (Event.report (runCheck CheckKind.tdxModule env)) = !condTdxModule env := by
  cases h : check_tdx_module env.dmesg <;>
    simp [runCheck, isAutoFailReport, condTdxModule, h]

theorem af_report_tme (env : Env) :
    isAutoFailReport (Event.report (runCheck CheckKind.tmeEnabled env)) = !condTme env := by
  by_cases h : env.msr 0x982 &&& (1 <<< 1) > 0 <;>
    simp [runCheck, isAutoFailReport, condTme, h, Nat.pos_iff_ne_zero, decide_not]

theorem af_report_tmeMt (env : Env) :
    isAutoFailReport (Event.report (runCheck CheckKind.tmeMt env)) = false := by
  by_cases h : env.msr 0x982 &&& (1 <<< 1) > 0 <;>
    simp [runCheck, isAutoFailReport, h]

theorem af_report_keySplit (env : Env) :
    isAutoFailReport (Event.report (runCheck CheckKind.tdxKeySplit env)) = !condKeySplit env := by
  by_cases h : env.msr 0x981 &&& (0x7fff <<< 36) ≠ 0 <;>
    simp [runCheck, isAutoFailReport, condKeySplit, h, Nat.pos_iff_ne_zero, decide_not]

theorem af_report_sgxReg (env : Env) :
    isAutoFailReport (Event.report (runCheck CheckKind.sgxRegServer env)) = false := rfl

theorem tdx_sub_af (env : Env) :
    anyAutoFail (runTests env tdx_sub_tests).2
      = (!condTdxModule env || !condTme env || !condKeySplit env) := by
  cases h5 : condTdxModule env <;> cases h6 : condTme env <;> cases h7 : condKeySplit env <;>
    simp [tdx_sub_tests, tdx_module_test, tme_enabled_test, tme_mt_test,
      tdx_key_split_test, sgx_reg_server_test, runTests, ownEvents,
      runProbes, postRunOf, skipTrace, anyAutoFail, List.any_append,
      state_tdxModule, state_tme, state_tmeMt, state_keySplit, state_sgxReg,
      isAutoFailReport_eval, isAutoFailReport_probe, isAutoFailReport_postRun,
      isAutoFailReport_skipLine, af_report_tdxModule, af_report_tme,
      af_report_tmeMt, af_report_keySplit, af_report_sgxReg,
      h5, h6, h7]

theorem af_report_cpu (env : Env) :
    isAutoFailReport (Event.report (runCheck CheckKind.cpuManuId env)) = !condCpu env := by
  by_cases h : env.cpuVendor = "GenuineIntel" <;>
    simp [runCheck, isAutoFailReport, condCpu, h]

theorem af_report_os (env : Env) :
    isAutoFailReport (Event.report (runCheck CheckKind.osDistro env)) = !condOs env := by
  cases h : check_os env.osPrettyName <;>
    simp [runCheck, isAutoFailReport, condOs, h]

theorem af_report_sgx (env : Env) :
    isAutoFailReport (Event.report (runCheck CheckKind.sgxEnabled env)) = !condSgx env := by
  by_cases h : env.msr 0x3a &&& (1 <<< 18) > 0 <;>
    simp [runCheck, isAutoFailReport, condSgx, h, Nat.pos_iff_ne_zero, decide_not]

theorem af_report_tdx (env : Env) :
    isAutoFailReport (Event.report (runCheck CheckKind.tdxEnabled env)) = !condTdx env := by
  by_cases h : env.msr 0x1401 &&& (1 <<< 11) > 0 <;>
    simp [runCheck, isAutoFailReport, condTdx, h, Nat.pos_iff_ne_zero, decide_not]

theorem af_report_kvm (env : Env) :
    isAutoFailReport (Event.report (runCheck CheckKind.kvmSupported env)) = !condKvm env := by
  cases ho : env.kvmOpenOk <;> by_cases ha : env.kvmApiVersion < 0 <;>
    simp [runCheck, isAutoFailReport, condKvm, check_kvm_supported, ho, ha]

theorem af_report_kvmSgx (env : Env) :
    isAutoFailReport (Event.report (runCheck CheckKind.kvmSgxParam env)) = !condKvmSgx env := by
  rcases kvm_param_state KvmParameter.Sgx env.kvmSgxExists env.kvmSgxRead with h | h <;>
    simp [runCheck, isAutoFailReport, condKvmSgx, h]

theorem af_report_kvmTdx (env : Env) :
    isAutoFailReport (Event.report (runCheck CheckKind.kvmTdxParam env)) = !condKvmTdx env := by
  rcases kvm_param_state KvmParameter.Tdx env.kvmTdxExists env.kvmTdxRead with h | h <;>
    simp [runCheck, isAutoFailReport, condKvmTdx, h]

theorem fr_report_cpu (env : Env) :
    isFailReport (Event.report (runCheck CheckKind.cpuManuId env)) = !condCpu env := by
  by_cases h : env.cpuVendor = "GenuineIntel" <;>
    simp [runCheck, isFailReport, condCpu, h]

theorem fr_report_os (env : Env) :
    isFailReport (Event.report (runCheck CheckKind.osDistro env)) = !condOs env := by
  cases h : check_os env.osPrettyName <;> simp [runCheck, isFailReport, condOs, h]

theorem fr_report_sgx (env : Env) :
    isFailReport (Event.report (runCheck CheckKind.sgxEnabled env)) = !condSgx env := by
  by_cases h : env.msr 0x3a &&& (1 <<< 18) > 0 <;>
    simp [runCheck, isFailReport, condSgx, h, Nat.pos_iff_ne_zero, decide_not]

theorem fr_report_tdx (env : Env) :
    isFailReport (Event.report (runCheck CheckKind.tdxEnabled env)) = !condTdx env := by
  by_cases h : env.msr 0x1401 &&& (1 <<< 11) > 0 <;>
    simp [runCheck, isFailReport, condTdx, h, Nat.pos_iff_ne_zero, decide_not]

theorem fr_report_tdxModule (env : Env) :
    isFailReport (Event.report (runCheck CheckKind.tdxModule env)) = !condTdxModule env := by
  cases h : check_tdx_module env.dmesg <;> simp [runCheck, isFailReport, condTdxModule, h]

theorem fr_report_tme (env : Env) :
    isFailReport (Event.report (runCheck CheckKind.tmeEnabled env)) = !condTme env := by
  by_cases h : env.msr 0x982 &&& (1 <<< 1) > 0 <;>
    simp [runCheck, isFailReport, condTme, h, Nat.pos_iff_ne_zero, decide_not]

theorem fr_report_tmeMt (env : Env) :
    isFailReport (Event.report (runCheck CheckKind.tmeMt env)) = !condTme env := by
  by_cases h : env.msr 0x982 &&& (1 <<< 1) > 0 <;>
    simp [runCheck, isFailReport, condTme, h, Nat.pos_iff_ne_zero, decide_not]

theorem fr_report_keySplit (env : Env) :
    isFailReport (Event.report (runCheck CheckKind.tdxKeySplit env)) = !condKeySplit env := by
  by_cases h : env.msr 0x981 &&& (0x7fff <<< 36) ≠ 0 <;>
    simp [runCheck, isFailReport, condKeySplit, h, Nat.pos_iff_ne_zero, decide_not]

theorem fr_report_sgxReg (env : Env) :
    isFailReport (Event.report (runCheck CheckKind.sgxRegServer env)) = false := rfl

theorem fr_report_kvm (env : Env) :
    isFailReport (Event.report (runCheck CheckKind.kvmSupported env)) = !condKvm env := by
  cases ho : env.kvmOpenOk <;> by_cases ha : env.kvmApiVersion < 0 <;>
    simp [runCheck, isFailReport, condKvm, check_kvm_supported, ho, ha]

theorem fr_report_kvmSgx (env : Env) :
    isFailReport (Event.report (runCheck CheckKind.kvmSgxParam env)) = !condKvmSgx env := by
  rcases kvm_param_state KvmParameter.Sgx env.kvmSgxExists env.kvmSgxRead with h | h <;>
    simp [runCheck, isFailReport, condKvmSgx, h]

theorem fr_report_kvmTdx (env : Env) :
    isFailReport (Event.report (runCheck CheckKind.kvmTdxParam env)) = !condKvmTdx env := by
  rcases kvm_param_state KvmParameter.Tdx env.kvmTdxExists env.kvmTdxRead with h | h <;>
    simp [runCheck, isFailReport, condKvmTdx, h]

theorem tdx_sub_fr (env : Env) :
    anyFailReport (runTests env tdx_sub_tests).2
      = (!condTdxModule env || !condTme env || !condKeySplit env) := by
  cases h5 : condTdxModule env <;> cases h6 : condTme env <;> cases h7 : condKeySplit env <;>
    simp [tdx_sub_tests, tdx_module_test, tme_enabled_test, tme_mt_test,
      tdx_key_split_test, sgx_reg_server_test, runTests, ownEvents,
      runProbes, postRunOf, skipTrace, anyFailReport, List.any_append,
      state_tdxModule, state_tme, state_tmeMt, state_keySplit, state_sgxReg,
      isFailReport_eval, isFailReport_probe, isFailReport_postRun,
      isFailReport_skipLine, fr_report_tdxModule, fr_report_tme,
      fr_report_tmeMt, fr_report_keySplit, fr_report_sgxReg,
      h5, h6, h7]

theorem runTests_append (env : Env) (ts1 ts2 : List Test) :
    runTests env (ts1 ++ ts2)
      = ((runTests env ts1).1 && (runTests env ts2).1,
         (runTests env ts1).2 ++ (runTests env ts2).2) := by
  induction ts1 with
  | nil => simp [runTests]
  | cons t ts ih =>
    cases t with
    | mk n k sub =>
      simp [runTests, ih, Bool.and_assoc]

theorem trace_leaf (env : Env) (n : String) (k : CheckKind) :
    (runTests env [Test.mk n k []]).2 = ownEvents n k env := by
  cases hs : (runCheck k env).state <;> simp [runTests, hs, skipTrace]

theorem tdx_pass (env : Env) :
    (runTests env [tdx_enabled_test]).1
      = (condTdx env && (condTdxModule env && condTme env && condKeySplit env)) := by
  cases h4 : condTdx env <;>
    simp [tdx_enabled_test, runTests, state_tdx, h4, tdx_sub_pass]

theorem sgx_pass (env : Env) :
    (runTests env [sgx_enabled_test]).1
      = (condSgx env && (condTdx env && (condTdxModule env && condTme env && condKeySplit env))) := by
  cases h3 : condSgx env <;>
    simp [sgx_enabled_test, runTests, state_sgx, h3, tdx_pass]

theorem os_pass (env : Env) :
    (runTests env [os_distro_test]).1
      = (condOs env && (condSgx env && (condTdx env
          && (condTdxModule env && condTme env && condKeySplit env)))) := by
  cases h2 : condOs env <;>
    simp [os_distro_test, runTests, state_os, h2, sgx_pass]

theorem cpu_pass (env : Env) :
    (runTests env [cpu_manu_id_test]).1
      = (condCpu env && (condOs env && (condSgx env && (condTdx env
          && (condTdxModule env && condTme env && condKeySplit env))))) := by
  cases h1 : condCpu env <;>
    simp [cpu_manu_id_test, runTests, state_cpu, h1, os_pass]

theorem kvm_sub_pass (env : Env) :
    (runTests env kvm_sub_tests).1 = (condKvmSgx env && condKvmTdx env) := by
  cases h2 : condKvmSgx env <;> cases h3 : condKvmTdx env <;>
    simp [kvm_sub_tests, kvm_sgx_mod_test, kvm_tdx_mod_test, runTests,
      state_kvm_sgx, state_kvm_tdx, h2, h3]

theorem kvm_pass (env : Env) :
    (runTests env [kvm_supported_test]).1
      = (condKvm env && (condKvmSgx env && condKvmTdx env)) := by
  cases h1 : condKvm env <;>
    simp [kvm_supported_test, runTests, state_kvm, h1, kvm_sub_pass]

theorem required_pass (env : Env) :
    (runTests env get_required_tests).1
      = ((condCpu env && (condOs env && (condSgx env && (condTdx env
            && (condTdxModule env && condTme env && condKeySplit env)))))
         && (condKvm env && (condKvmSgx env && condKvmTdx env))) := by
  have hsplit : get_required_tests = [cpu_manu_id_test] ++ [kvm_supported_test] := rfl
  rw [hsplit, runTests_append, cpu_pass, kvm_pass]

theorem anyAutoFail_nil : anyAutoFail [] = false := rfl

theorem anyAutoFail_cons (e : Event) (tr : List Event) :
    anyAutoFail (e :: tr) = (isAutoFailReport e || anyAutoFail tr) := by
  simp [anyAutoFail]

theorem anyAutoFail_append (a b : List Event) :
    anyAutoFail (a ++ b) = (anyAutoFail a || anyAutoFail b) := by
  simp [anyAutoFail]

theorem anyFailReport_nil : anyFailReport [] = false := rfl

theorem anyFailReport_cons (e : Event) (tr : List Event) :
    anyFailReport (e :: tr) = (isFailReport e || anyFailReport tr) := by
  simp [anyFailReport]

theorem anyFailReport_append (a b : List Event) :
    anyFailReport (a ++ b) = (anyFailReport a || anyFailReport b) := by
  simp [anyFailReport]

theorem tdx_af (env : Env) :
    anyAutoFail (runTests env [tdx_enabled_test]).2
      = (!condTdx env || (!condTdxModule env || !condTme env || !condKeySplit env)) := by
  cases h4 : condTdx env <;>
    simp [tdx_enabled_test, runTests, ownEvents, runProbes, postRunOf,
      anyAutoFail_nil, anyAutoFail_cons, anyAutoFail_append, state_tdx, af_report_tdx,
      isAutoFailReport_eval, isAutoFailReport_probe, isAutoFailReport_postRun,
      isAutoFailReport_skipLine, h4, tdx_sub_af, skipTrace_eq_map,
      anyAutoFail_map_skipLine]

theorem sgx_af (env : Env) :
    anyAutoFail (runTests env [sgx_enabled_test]).2
      = (!condSgx env || (!condTdx env
          || (!condTdxModule env || !condTme env || !condKeySplit env))) := by
  cases h3 : condSgx env <;>
    simp [sgx_enabled_test, runTests, ownEvents, runProbes, postRunOf,
      anyAutoFail_nil, anyAutoFail_cons, anyAutoFail_append, state_sgx, af_report_sgx,
      isAutoFailReport_eval, isAutoFailReport_probe, isAutoFailReport_postRun,
      isAutoFailReport_skipLine, h3, tdx_af, skipTrace_eq_map,
      anyAutoFail_map_skipLine]

theorem os_af (env : Env) :
    anyAutoFail (runTests env [os_distro_test]).2
      = (!condOs env || (!condSgx env || (!condTdx env
          || (!condTdxModule env || !condTme env || !condKeySplit env)))) := by
  cases h2 : condOs env <;>
    simp [os_distro_test, runTests, ownEvents, runProbes, postRunOf,
      anyAutoFail_nil, anyAutoFail_cons, anyAutoFail_append, state_os, af_report_os,
      isAutoFailReport_eval, isAutoFailReport_probe, isAutoFailReport_postRun,
      isAutoFailReport_skipLine, h2, sgx_af, skipTrace_eq_map,
      anyAutoFail_map_skipLine]

theorem cpu_af (env : Env) :
    anyAutoFail (runTests env [cpu_manu_id_test]).2
      = (!condCpu env || (!condOs env || (!condSgx env || (!condTdx env
          || (!condTdxModule env || !condTme env || !condKeySplit env))))) := by
  cases h1 : condCpu env <;>
    simp [cpu_manu_id_test, runTests, ownEvents, runProbes, postRunOf,
      anyAutoFail_nil, anyAutoFail_cons, anyAutoFail_append, state_cpu, af_report_cpu,
      isAutoFailReport_eval, isAutoFailReport_probe, isAutoFailReport_postRun,
      isAutoFailReport_skipLine, h1, os_af, skipTrace_eq_map,
      anyAutoFail_map_skipLine]

theorem kvm_sub_af (env : Env) :
    anyAutoFail (runTests env kvm_sub_tests).2
      = (!condKvmSgx env || !condKvmTdx env) := by
  cases h2 : condKvmSgx env <;> cases h3 : condKvmTdx env <;>
    simp [kvm_sub_tests, kvm_sgx_mod_test, kvm_tdx_mod_test, runTests,
      ownEvents, runProbes, postRunOf, anyAutoFail_nil, anyAutoFail_cons, anyAutoFail_append,
      state_kvm_sgx, state_kvm_tdx, af_report_kvmSgx, af_report_kvmTdx,
      isAutoFailReport_eval, isAutoFailReport_probe, isAutoFailReport_postRun,
      isAutoFailReport_skipLine, skipTrace, h2, h3]

theorem kvm_af (env : Env) :
    anyAutoFail (runTests env [kvm_supported_test]).2
      = (!condKvm env || (!condKvmSgx env || !condKvmTdx env)) := by
  cases h1 : condKvm env <;>
    simp [kvm_supported_test, runTests, ownEvents, runProbes, postRunOf,
      anyAutoFail_nil, anyAutoFail_cons, anyAutoFail_append, state_kvm, af_report_kvm,
      isAutoFailReport_eval, isAutoFailReport_probe, isAutoFailReport_postRun,
      isAutoFailReport_skipLine, h1, kvm_sub_af, skipTrace_eq_map,
      anyAutoFail_map_skipLine]

theorem required_af (env : Env) :
    anyAutoFail (runTests env get_required_tests).2
      = ((!condCpu env || (!condOs env || (!condSgx env || (!condTdx env
            || (!condTdxModule env || !condTme env || !condKeySplit env)))))
         || (!condKvm env || (!condKvmSgx env || !condKvmTdx env))) := by
  have hsplit : get_required_tests = [cpu_manu_id_test] ++ [kvm_supported_test] := rfl
  rw [hsplit, runTests_append]
  simp only [anyAutoFail_append, cpu_af, kvm_af]

theorem tdx_fr (env : Env) :
    anyFailReport (runTests env [tdx_enabled_test]).2
      = (!condTdx env || (!condTdxModule env || !condTme env || !condKeySplit env)) := by
  cases h4 : condTdx env <;>
    simp [tdx_enabled_test, runTests, ownEvents, runProbes, postRunOf,
      anyFailReport_nil, anyFailReport_cons, anyFailReport_append, state_tdx,
      fr_report_tdx, isFailReport_eval, isFailReport_probe, isFailReport_postRun,
      isFailReport_skipLine, h4, tdx_sub_fr, skipTrace_eq_map,
      anyFailReport_map_skipLine]

theorem sgx_fr (env : Env) :
    anyFailReport (runTests env [sgx_enabled_test]).2
      = (!condSgx env || (!condTdx env
          || (!condTdxModule env || !condTme env || !condKeySplit env))) := by
  cases h3 : condSgx env <;>
    simp [sgx_enabled_test, runTests, ownEvents, runProbes, postRunOf,
      anyFailReport_nil, anyFailReport_cons, anyFailReport_append, state_sgx,
      fr_report_sgx, isFailReport_eval, isFailReport_probe, isFailReport_postRun,
      isFailReport_skipLine, h3, tdx_fr, skipTrace_eq_map,
      anyFailReport_map_skipLine]

theorem os_fr (env : Env) :
    anyFailReport (runTests env [os_distro_test]).2
      = (!condOs env || (!condSgx env || (!condTdx env
          || (!condTdxModule env || !condTme env || !condKeySplit env)))) := by
  cases h2 : condOs env <;>
    simp [os_distro_test, runTests, ownEvents, runProbes, postRunOf,
      anyFailReport_nil, anyFailReport_cons, anyFailReport_append, state_os,
      fr_report_os, isFailReport_eval, isFailReport_probe, isFailReport_postRun,
      isFailReport_skipLine, h2, sgx_fr, skipTrace_eq_map,
      anyFailReport_map_skipLine]

theorem cpu_fr (env : Env) :
    anyFailReport (runTests env [cpu_manu_id_test]).2
      = (!condCpu env || (!condOs env || (!condSgx env || (!condTdx env
          || (!condTdxModule env || !condTme env || !condKeySplit env))))) := by
  cases h1 : condCpu env <;>
    simp [cpu_manu_id_test, runTests, ownEvents, runProbes, postRunOf,
      anyFailReport_nil, anyFailReport_cons, anyFailReport_append, state_cpu,
      fr_report_cpu, isFailReport_eval, isFailReport_probe, isFailReport_postRun,
      isFailReport_skipLine, h1, os_fr, skipTrace_eq_map,
      anyFailReport_map_skipLine]

theorem kvm_sub_fr (env : Env) :
    anyFailReport (runTests env kvm_sub_tests).2
      = (!condKvmSgx env || !condKvmTdx env) := by
  cases h2 : condKvmSgx env <;> cases h3 : condKvmTdx env <;>
    simp [kvm_sub_tests, kvm_sgx_mod_test, kvm_tdx_mod_test, runTests,
      ownEvents, runProbes, postRunOf, anyFailReport_nil, anyFailReport_cons,
      anyFailReport_append, state_kvm_sgx, state_kvm_tdx, fr_report_kvmSgx,
      fr_report_kvmTdx, isFailReport_eval, isFailReport_probe,
      isFailReport_postRun, isFailReport_skipLine, skipTrace, h2, h3]

theorem kvm_fr (env : Env) :
    anyFailReport (runTests env [kvm_supported_test]).2
      = (!condKvm env || (!condKvmSgx env || !condKvmTdx env)) := by
  cases h1 : condKvm env <;>
    simp [kvm_supported_test, runTests, ownEvents, runProbes, postRunOf,
      anyFailReport_nil, anyFailReport_cons, anyFailReport_append, state_kvm,
      fr_report_kvm, isFailReport_eval, isFailReport_probe, isFailReport_postRun,
      isFailReport_skipLine, h1, kvm_sub_fr, skipTrace_eq_map,
      anyFailReport_map_skipLine]

theorem required_fr (env : Env) :
    anyFailReport (runTests env get_required_tests).2
      = ((!condCpu env || (!condOs env || (!condSgx env || (!condTdx env
            || (!condTdxModule env || !condTme env || !condKeySplit env)))))
         || (!condKvm env || (!condKvmSgx env || !condKvmTdx env))) := by
  have hsplit : get_required_tests = [cpu_manu_id_test] ++ [kvm_supported_test] := rfl
  rw [hsplit, runTests_append]
  simp only [anyFailReport_append, cpu_fr, kvm_fr]

theorem probeCount_nil (p : ProbeId) : probeCount p [] = 0 := rfl

theorem probeCount_cons (p : ProbeId) (e : Event) (tr : List Event) :
    probeCount p (e :: tr)
      = (if e = Event.probe p then 1 else 0) + probeCount p tr := by
  by_cases h : e = Event.probe p
  · simp [probeCount, List.countP_cons, h]
    omega
  · simp [probeCount, List.countP_cons, h]

theorem probeCount_append (p : ProbeId) (a b : List Event) :
    probeCount p (a ++ b) = probeCount p a + probeCount p b := by
  simp [probeCount, List.countP_append]

theorem trace_nil (env : Env) : (runTests env []).2 = [] := by simp [runTests]

theorem trace_cons (env : Env) (t : Test) (ts : List Test) :
    (runTests env (t :: ts)).2
      = ownEvents t.name t.kind env ++ childSegment t env ++ (runTests env ts).2 := by
  cases t with
  | mk n k sub =>
    cases hs : (runCheck k env).state <;>
      simp [runTests, childSegment, Test.name, Test.kind, Test.subTests, hs]

theorem childSegment_leaf (env : Env) (n : String) (k : CheckKind) :
    childSegment (Test.mk n k []) env = [] := by
  cases hs : (runCheck k env).state <;>
    simp [childSegment, Test.kind, Test.subTests, hs, runTests, skipTrace]

theorem tdx_sub_pc (env : Env) :
    probeCount ProbeId.osPrettyName (runTests env tdx_sub_tests).2 = 0 := by
  simp [tdx_sub_tests, tdx_module_test, tme_enabled_test, tme_mt_test,
    tdx_key_split_test, sgx_reg_server_test, trace_cons, childSegment_leaf,
    Test.name, Test.kind, trace_nil, ownEvents, runProbes,
    postRunOf, probeCount_append, probeCount_cons, probeCount_nil]

theorem tdx_pc (env : Env) :
    probeCount ProbeId.osPrettyName (runTests env [tdx_enabled_test]).2 = 0 := by
  cases h4 : condTdx env <;>
    simp [tdx_enabled_test, runTests, state_tdx, h4, ownEvents, runProbes,
      postRunOf, probeCount_append, probeCount_cons, probeCount_nil,
      tdx_sub_pc, skipTrace_eq_map, probeCount_map_skipLine]

theorem sgx_pc (env : Env) :
    probeCount ProbeId.osPrettyName (runTests env [sgx_enabled_test]).2 = 0 := by
  cases h3 : condSgx env <;>
    simp [sgx_enabled_test, runTests, state_sgx, h3, ownEvents, runProbes,
      postRunOf, probeCount_append, probeCount_cons, probeCount_nil,
      tdx_pc, skipTrace_eq_map, probeCount_map_skipLine]

theorem os_pc (env : Env) :
    probeCount ProbeId.osPrettyName (runTests env [os_distro_test]).2 = 2 := by
  cases h2 : condOs env <;>
    simp [os_distro_test, runTests, state_os, h2, ownEvents, runProbes,
      postRunOf, probeCount_append, probeCount_cons, probeCount_nil,
      sgx_pc, skipTrace_eq_map, probeCount_map_skipLine]

theorem cpu_pc (env : Env) :
    probeCount ProbeId.osPrettyName (runTests env [cpu_manu_id_test]).2
      = (if condCpu env then 2 else 0) := by
  cases h1 : condCpu env <;>
    simp [cpu_manu_id_test, runTests, state_cpu, h1, ownEvents, runProbes,
      postRunOf, probeCount_append, probeCount_cons, probeCount_nil,
      os_pc, skipTrace_eq_map, probeCount_map_skipLine]

theorem kvm_sub_pc (env : Env) :
    probeCount ProbeId.osPrettyName (runTests env kvm_sub_tests).2 = 0 := by
  simp [kvm_sub_tests, kvm_sgx_mod_test, kvm_tdx_mod_test, trace_cons,
    childSegment_leaf, Test.name, Test.kind, trace_nil, ownEvents, runProbes,
    postRunOf, probeCount_append, probeCount_cons, probeCount_nil]

theorem kvm_pc (env : Env) :
    probeCount ProbeId.osPrettyName (runTests env [kvm_supported_test]).2 = 0 := by
  cases h1 : condKvm env <;>
    simp [kvm_supported_test, runTests, state_kvm, h1, ownEvents, runProbes,
      postRunOf, probeCount_append, probeCount_cons, probeCount_nil,
      kvm_sub_pc, skipTrace_eq_map, probeCount_map_skipLine]

theorem required_pc (env : Env) :
    probeCount ProbeId.osPrettyName (runTests env get_required_tests).2
      = (if condCpu env then 2 else 0) := by
  have hsplit : get_required_tests = [cpu_manu_id_test] ++ [kvm_supported_test] := rfl
  rw [hsplit, runTests_append]
  simp [probeCount_append, cpu_pc, kvm_pc]

theorem optional_pc (env : Env) :
    probeCount ProbeId.osPrettyName (runTests env get_optional_tests).2 = 0 := by
  simp [get_optional_tests, bios_mem_map_test, bios_tme_bypass_test,
    bios_seam_loader_test, trace_cons, childSegment_leaf, Test.name, Test.kind,
    trace_nil, ownEvents, runProbes, postRunOf,
    probeCount_append, probeCount_cons, probeCount_nil]

theorem run_all_checks_pc (env : Env) :
    probeCount ProbeId.osPrettyName (run_all_checks env).2
      = (if condCpu env then 2 else 0) := by
  simp [run_all_checks, probeCount_append, required_pc, optional_pc]

theorem required_af_eq_not_pass (env : Env) :
    anyAutoFail (runTests env get_required_tests).2
      = !(runTests env get_required_tests).1 := by
  rw [required_pass, required_af]
  simp [Bool.not_and]

theorem required_fr_eq_not_pass (env : Env) :
    anyFailReport (runTests env get_required_tests).2
      = !(runTests env get_required_tests).1 := by
  rw [required_pass, required_fr]
  simp [Bool.not_and]

theorem required_aggregate_iff_auto_fail (env : Env) :
    ((runTests env get_required_tests).1 = false
      ↔ anyAutoFail (runTests env get_required_tests).2 = true)
    ∧ (run_all_checks env).1
        = (if (runTests env get_required_tests).1 then Except.ok ()
           else Except.error "One or more required tests failed") := by
  constructor
  · rw [required_af_eq_not_pass]
    cases (runTests env get_required_tests).1 <;> simp
  · cases hp : (runTests env get_required_tests).1 <;> simp [run_all_checks, hp]

theorem exit_code_from_required_forest (env : Env) :
    (mainExitCode env ≠ 0 ↔ anyFailReport (runTests env get_required_tests).2 = true)
    ∧ mainExitCode env = (if (runTests env get_required_tests).1 then 0 else 1) := by
  rw [required_fr_eq_not_pass]
  cases hp : (runTests env get_required_tests).1 <;>
    simp [mainExitCode, run_all_checks, hp]

theorem os_probe_called_twice (env : Env) :
    probeCount ProbeId.osPrettyName (run_all_checks env).2
      = (if condCpu env then 2 else 0) :=
  run_all_checks_pc env

theorem os_probe_called_twice_counterexample :
    probeCount ProbeId.osPrettyName (run_all_checks envAllOn).2 = 2 := by
  rw [run_all_checks_pc]
  simp [condCpu, envAllOn]

theorem mask_testBit (i : Nat) :
    (0x7fff <<< 36 : Nat).testBit i = (decide (36 ≤ i) && decide (i ≤ 50)) := by
  rcases lt_or_ge i 36 with h36 | h36
  · rw [Nat.testBit_shiftLeft]
    simp [Nat.not_le.mpr h36, Nat.le_of_lt h36]
  · rcases le_or_lt i 50 with h50 | h50
    · interval_cases i <;> decide
    · have hlt : (0x7fff <<< 36 : Nat) < 2 ^ i := by
        calc (0x7fff <<< 36 : Nat) < 2 ^ 51 := by decide
        _ ≤ 2 ^ i := Nat.pow_le_pow_right (by decide) h50
      rw [Nat.testBit_lt_two_pow hlt]
      simp [Nat.not_le.mpr h50]

theorem land_mask_ne_zero (v : Nat) :
    v &&& (0x7fff <<< 36) ≠ 0 ↔ ∃ i, 36 ≤ i ∧ i ≤ 50 ∧ v.testBit i = true := by
  constructor
  · intro h
    obtain ⟨i, hi⟩ : ∃ i, (v &&& (0x7fff <<< 36)).testBit i = true := by
      by_contra hc
      push_neg at hc
      apply h
      apply Nat.eq_of_testBit_eq
      intro j
      rw [Nat.zero_testBit]
      simpa using hc j
    rw [Nat.testBit_land, mask_testBit] at hi
    simp only [Bool.and_eq_true, decide_eq_true_eq] at hi
    exact ⟨i, hi.2.1, hi.2.2, hi.1⟩
  · rintro ⟨i, h36, h50, hb⟩
    intro h0
    have hbit : (v &&& (0x7fff <<< 36)).testBit i = true := by
      rw [Nat.testBit_land, mask_testBit]
      simp [hb, h36, h50]
    rw [h0] at hbit
    simp at hbit

theorem keySplit_state_congr (env envB : Env)
    (h : ∀ i, 36 ≤ i → i ≤ 50 →
        (env.msr 0x981).testBit i = (envB.msr 0x981).testBit i) :
    (runCheck CheckKind.tdxKeySplit env).state
      = (runCheck CheckKind.tdxKeySplit envB).state := by
  have hm : env.msr 0x981 &&& (0x7fff <<< 36) = envB.msr 0x981 &&& (0x7fff <<< 36) := by
    apply Nat.eq_of_testBit_eq
    intro i
    rw [Nat.testBit_land, Nat.testBit_land, mask_testBit]
    by_cases h36 : 36 ≤ i
    · by_cases h50 : i ≤ 50
      · simp [h36, h50, h i h36 h50]
      · simp [h50]
    · simp [h36]
  rw [state_keySplit, state_keySplit]
  have hc : condKeySplit env = condKeySplit envB := by
    simp only [Nat.shiftLeft_eq, Nat.reducePow, Nat.reduceMul] at hm ⊢
    simp [condKeySplit, hm]
  rw [hc]

theorem key_split_iff_bits (env : Env) :
    ((runCheck CheckKind.tdxKeySplit env).state = TestState.Ok
      ↔ ∃ i, 36 ≤ i ∧ i ≤ 50 ∧ (env.msr 0x981).testBit i = true)
    ∧ ∀ envB : Env,
        (∀ i, 36 ≤ i → i ≤ 50 →
            (env.msr 0x981).testBit i = (envB.msr 0x981).testBit i) →
        (runCheck CheckKind.tdxKeySplit env).state
          = (runCheck CheckKind.tdxKeySplit envB).state := by
  refine ⟨?_, fun envB h => keySplit_state_congr env envB h⟩
  rw [state_keySplit]
  rw [← land_mask_ne_zero (env.msr 0x981)]
  by_cases h : env.msr 0x981 &&& (0x7fff <<< 36) ≠ 0 <;> simp [condKeySplit, h]

theorem key_split_iff_bits_witness :
    ((runCheck CheckKind.tdxKeySplit envAllOn).state
        = (runCheck CheckKind.tdxKeySplit envKeyAlt).state)
    ∧ (runCheck CheckKind.tdxKeySplit envAllOn).state = TestState.Ok :=
  ⟨(key_split_iff_bits envAllOn).2 envKeyAlt
      (by intro i h36 h50; interval_cases i <;> decide),
   by decide⟩

theorem check_os_only_last_entry_matches :
    check_os "Ubuntu 22.04.1 LTS" = false
    ∧ "Ubuntu 22.04.1 LTS" ∈ SUPPORTED_OSES
    ∧ check_os "Red Hat Enterprise Linux 8.7 (Ootpa)" = false
    ∧ "Red Hat Enterprise Linux 8.7 (Ootpa)" ∈ SUPPORTED_OSES
    ∧ check_os "CentOS Stream 9" = true
    ∧ ∀ p : String, check_os p = (p == "CentOS Stream 9") := by
  refine ⟨by decide, by decide, by decide, by decide, by decide, ?_⟩
  intro p
  simp [check_os, SUPPORTED_OSES, List.foldl]
  by_cases h : p = "CentOS Stream 9" <;> simp [h]
  intro hc
  exact h hc.symm

theorem tme_mt_fails_when_bit_clear_counterexample :
    (runCheck CheckKind.tmeMt envAllOff).operation = TestOperationState.Manual
    ∧ (runCheck CheckKind.tmeMt envAllOff).state = TestState.Fail
    ∧ (runCheck CheckKind.tmeMt envAllOff).state ≠ TestState.Tbd := by decide

theorem manual_mode_outcomes (env : Env) :
    (runCheck CheckKind.tmeMt env).operation = TestOperationState.Manual
    ∧ (runCheck CheckKind.tmeMt env).state
        = (if condTme env then TestState.Tbd else TestState.Fail)
    ∧ (runCheck CheckKind.tmeMt env).state ≠ TestState.Ok
    ∧ (runCheck CheckKind.sgxRegServer env).state = TestState.Tbd
    ∧ (runCheck CheckKind.biosMemMap env).state = TestState.Tbd
    ∧ (runCheck CheckKind.seamLoader env).state = TestState.Tbd := by
  refine ⟨rfl, state_tmeMt env, ?_, rfl, rfl, rfl⟩
  rw [state_tmeMt]
  cases condTme env <;> simp

theorem probe_failures_escape_counterexample :
    check_tdx_moduleE none = Except.error "failed to run dmesg"
    ∧ get_os_pretty_nameE none = Except.error "/etc/os-release does not exist"
    ∧ tdx_enabled_runE none = Except.error "MSR read failed"
    ∧ check_osE none = Except.error "/etc/os-release does not exist" :=
  ⟨rfl, rfl, rfl, rfl⟩

theorem probe_failure_policy (env : Env) (p : KvmParameter)
    (rr : Except String String) (e : String)
    (hopen : env.kvmOpenOk = false) :
    check_kvm_supported env
        = (TestState.Fail, "Unable to read KVM device node file (/dev/kvm)")
    ∧ (check_kvm_module_supported p false rr).1 = TestState.Fail
    ∧ (check_kvm_module_supported p true (Except.error e)).1 = TestState.Fail
    ∧ get_os_pretty_nameE none = Except.error "/etc/os-release does not exist"
    ∧ check_tdx_moduleE none = Except.error "failed to run dmesg"
    ∧ tdx_enabled_runE none = Except.error "MSR read failed" := by
  refine ⟨by simp [check_kvm_supported, hopen], ?_, ?_, rfl, rfl, rfl⟩
  · cases p <;> simp [check_kvm_module_supported]
  · cases p <;> simp [check_kvm_module_supported]

theorem probe_failure_policy_witness :
    envAllOff.kvmOpenOk = false
    ∧ check_kvm_supported envAllOff
        = (TestState.Fail, "Unable to read KVM device node file (/dev/kvm)") :=
  ⟨rfl,
   (probe_failure_policy envAllOff KvmParameter.Sgx (Except.ok "") "e" rfl).1⟩

theorem report_result_manual_fail_red_counterexample :
    (report_result
        { state := TestState.Fail, operation := TestOperationState.Manual }).color
      = Color.red
    ∧ Color.red ≠ Color.yellow := by decide

theorem report_result_manual_policy (r : TestResult)
    (hman : r.operation = TestOperationState.Manual)
    (hstate : r.state = TestState.Fail ∨ r.state = TestState.Tbd
        ∨ r.state = TestState.Skip) :
    (report_result r).color
        = (if r.state = TestState.Fail then Color.red else Color.yellow)
    ∧ (report_result r).reasonLine
        = some "Unable to check in program. Please check manually." := by
  rcases hstate with h | h | h <;> simp [report_result, h, hman]

theorem report_result_manual_policy_witness :
    ({ state := TestState.Tbd,
       operation := TestOperationState.Manual : TestResult }.operation
        = TestOperationState.Manual)
    ∧ (report_result
        { state := TestState.Tbd, operation := TestOperationState.Manual }).color
        = (if ({ state := TestState.Tbd,
                 operation := TestOperationState.Manual : TestResult }.state
               = TestState.Fail) then Color.red else Color.yellow) :=
  ⟨rfl,
   (report_result_manual_policy
      { state := TestState.Tbd, operation := TestOperationState.Manual }
      rfl (Or.inr (Or.inl rfl))).1⟩
